import Mathlib

/-!
Verification development for the CBL-Baseball free-agent-pool fetch scripts.

Two Python source files are embedded:
* scripts/fetch_fangraphs_fa_pool.py (HTML mode): builds a leaders URL,
  issues a single GET, and scrapes the first HTML table into records.
* CBL_Free_Agent_Pool_native_tables_v3/scripts/fetch_fangraphs_fa_pool.py
  (structured mode): builds a query-parameter set, calls the JSON API with a
  bounded retry/backoff loop, and normalizes the JSON payload into row records.

JSON values are modelled by the inductive JVal; decoded payloads of the
provider are mappings with string keys (Python json.loads always produces
string-keyed dicts), so object fields are (String, JVal) pairs.  Machine
floats of the backoff computation (2.0, 1.8, 20.0) are modelled as exact
rationals.  The network is modelled as a stream of per-attempt outcomes.
-/

set_option maxHeartbeats 1000000

namespace CBL

/-- A decoded JSON value (result of r.json() in Python). -/
inductive JVal where
  | null
  | bool (b : Bool)
  | num (n : Int)
  | str (s : String)
  | arr (elems : List JVal)
  | obj (fields : List (String × JVal))

/-- Python isinstance(x, list): the list payload when the value is a sequence. -/
def asList : JVal → Option (List JVal)
  | .arr xs => some xs
  | _ => none

/-- Python isinstance(x, dict): whether the value is a mapping. -/
def isDict : JVal → Bool
  | .obj _ => true
  | _ => false

/-- payload.get(k) on a decoded JSON object, modelled as association-list lookup. -/
def jGet (payload : List (String × JVal)) (k : String) : Option JVal :=
  payload.lookup k

/-- payload.get(k) when the result must be a sequence: some xs exactly when the
key is present and holds a list value. -/
def getList (payload : List (String × JVal)) (k : String) : Option (List JVal) :=
  (jGet payload k).bind asList

/-- The for-loop of normalize: first key among ks whose value is a sequence. -/
def firstSeq (payload : List (String × JVal)) : List String → Option (List JVal)
  | [] => none
  | k :: ks =>
    match getList payload k with
    | some xs => some xs
    | none => firstSeq payload ks

/-- The candidate keys probed by normalize, in source priority order. -/
def KEYS : List String := ["data", "rows", "result", "results"]

/-- normalize(payload) from the structured-mode script: try "data" first, then
"rows", "result", "results"; on the first sequence found keep exactly the dict
elements; otherwise return []. -/
def normalize (payload : List (String × JVal)) : List JVal :=
  match getList payload "data" with
  | some xs => xs.filter isDict
  | none =>
    match firstSeq payload ["rows", "result", "results"] with
    | some xs => xs.filter isDict
    | none => []

theorem normalize_eq_firstSeq (payload : List (String × JVal)) :
    normalize payload =
      match firstSeq payload KEYS with
      | some xs => xs.filter isDict
      | none => [] := by
  unfold normalize KEYS
  cases h : getList payload "data" <;> simp [firstSeq, h]

/-! ## The structured-mode resilient fetcher call_api -/

/-- The transient status codes retried by call_api. -/
def RETRYABLE : List Nat := [429, 403, 502, 503, 504]

/-- Errors that one attempt of call_api can raise. -/
inductive ApiError where
  /-- RuntimeError raised for a status in RETRYABLE. -/
  | retryableStatus (status : Nat)
  /-- requests.HTTPError from r.raise_for_status() (status 400-599). -/
  | httpError (status : Nat)
  /-- r.json() failed to decode. -/
  | jsonDecodeError
  /-- requests.get itself raised (timeout, connection reset, ...). -/
  | requestException
  /-- the RuntimeError("Unknown error") fallthrough. -/
  | unknownError
deriving DecidableEq, Repr

/-- What the transport does on one attempt: either requests.get raises, or a
response arrives with a status code and a body (none when the body is not
decodable JSON). -/
inductive Outcome where
  | exn
  | resp (status : Nat) (body : Option JVal)

/-- One iteration of the try-block of call_api: check the retryable status
set, then raise_for_status (which raises exactly for statuses 400-599), then
decode the body. -/
def attemptResult : Outcome → Except ApiError JVal
  | .exn => .error .requestException
  | .resp s b =>
    if s ∈ RETRYABLE then .error (.retryableStatus s)
    else if 400 ≤ s ∧ s < 600 then .error (.httpError s)
    else
      match b with
      | some j => .ok j
      | none => .error .jsonDecodeError

/-- Whether the attempt raised (and hence is retried when budget remains). -/
def attemptFails (o : Outcome) : Bool :=
  match attemptResult o with
  | .error _ => true
  | .ok _ => false

/-- The exception an attempt raised, when it raised one. -/
def attemptError (o : Outcome) : Option ApiError :=
  match attemptResult o with
  | .error e => some e
  | .ok _ => none

/-- delay = min(delay * 1.8, 20.0), with the floats taken as exact rationals. -/
def nextDelay (d : ℚ) : ℚ := min (d * (9 / 5)) 20

/-- Observable result of a call_api run: the index of the last attempt made,
the sleeps performed between attempts (in order), and the returned payload or
the raised error. -/
structure CallResult where
  attempts : Nat
  delays : List ℚ
  result : Except ApiError JVal

/-- The retry loop of call_api: a is the current attempt index (1-based), r
the number of attempts still allowed after this one, d the current delay, s
the sleeps already performed.  When the attempt fails and budget remains, the
loop sleeps d, grows the delay and retries; when it fails on the final
attempt the current exception is re-raised. -/
def call_api_go (o : Nat → Outcome) : Nat → Nat → ℚ → List ℚ → CallResult
  | a, 0, _d, s =>
    match attemptResult (o a) with
    | .ok body => ⟨a, s, .ok body⟩
    | .error e => ⟨a, s, .error e⟩
  | a, r + 1, d, s =>
    match attemptResult (o a) with
    | .ok body => ⟨a, s, .ok body⟩
    | .error _ => call_api_go o (a + 1) r (nextDelay d) (s ++ [d])

/-- call_api(params, tries): attempts are numbered 1..tries; the delay starts
at 2.0.  With tries = 0 the loop body never runs and the final raise of
last_err or RuntimeError("Unknown error") fires. -/
def call_api (o : Nat → Outcome) (tries : Nat) : CallResult :=
  match tries with
  | 0 => ⟨0, [], .error .unknownError⟩
  | t + 1 => call_api_go o 1 t 2 []

theorem call_api_go_attempts_bounds (o : Nat → Outcome) :
    ∀ (r a : Nat) (d : ℚ) (s : List ℚ),
      a ≤ (call_api_go o a r d s).attempts ∧ (call_api_go o a r d s).attempts ≤ a + r := by
  intro r
  induction r with
  | zero =>
    intro a d s
    cases h : attemptResult (o a) <;> simp [call_api_go, h]
  | succ r ih =>
    intro a d s
    cases h : attemptResult (o a) with
    | ok body => simp [call_api_go, h]
    | error e =>
      have hb := ih (a + 1) (nextDelay d) (s ++ [d])
      simp only [call_api_go, h]
      omega

theorem call_api_go_result (o : Nat → Outcome) :
    ∀ (r a : Nat) (d : ℚ) (s : List ℚ),
      (call_api_go o a r d s).result = attemptResult (o (call_api_go o a r d s).attempts) := by
  intro r
  induction r with
  | zero =>
    intro a d s
    cases h : attemptResult (o a) <;> simp [call_api_go, h]
  | succ r ih =>
    intro a d s
    cases h : attemptResult (o a) with
    | ok body => simp [call_api_go, h]
    | error e =>
      simp only [call_api_go, h]
      exact ih (a + 1) (nextDelay d) (s ++ [d])

theorem call_api_go_failed_before (o : Nat → Outcome) :
    ∀ (r a : Nat) (d : ℚ) (s : List ℚ) (i : Nat),
      a ≤ i → i < (call_api_go o a r d s).attempts → attemptFails (o i) = true := by
  intro r
  induction r with
  | zero =>
    intro a d s i hai hlt
    cases h : attemptResult (o a) <;> simp [call_api_go, h] at hlt <;> omega
  | succ r ih =>
    intro a d s i hai hlt
    cases h : attemptResult (o a) with
    | ok body =>
      simp [call_api_go, h] at hlt
      omega
    | error e =>
      simp only [call_api_go, h] at hlt
      rcases Nat.lt_or_ge i (a + 1) with hia | hia
      · have : i = a := by omega
        subst this
        simp [attemptFails, h]
      · exact ih (a + 1) (nextDelay d) (s ++ [d]) i hia hlt

theorem call_api_go_exhausts_of_last_fails (o : Nat → Outcome) :
    ∀ (r a : Nat) (d : ℚ) (s : List ℚ),
      attemptFails (o (call_api_go o a r d s).attempts) = true →
      (call_api_go o a r d s).attempts = a + r := by
  intro r
  induction r with
  | zero =>
    intro a d s _
    cases h : attemptResult (o a) <;> simp [call_api_go, h]
  | succ r ih =>
    intro a d s hf
    cases h : attemptResult (o a) with
    | ok body =>
      simp only [call_api_go, h] at hf
      simp [attemptFails, h] at hf
    | error e =>
      simp only [call_api_go, h] at hf ⊢
      have := ih (a + 1) (nextDelay d) (s ++ [d]) hf
      omega

theorem call_api_go_delays (o : Nat → Outcome) :
    ∀ (r a : Nat) (d : ℚ) (s : List ℚ),
      (call_api_go o a r d s).delays =
        s ++ (List.range ((call_api_go o a r d s).attempts - a)).map
          (fun k => nextDelay^[k] d) := by
  intro r
  induction r with
  | zero =>
    intro a d s
    cases h : attemptResult (o a) <;> simp [call_api_go, h]
  | succ r ih =>
    intro a d s
    cases h : attemptResult (o a) with
    | ok body => simp [call_api_go, h]
    | error e =>
      simp only [call_api_go, h]
      have hrec := ih (a + 1) (nextDelay d) (s ++ [d])
      have hb := (call_api_go_attempts_bounds o r (a + 1) (nextDelay d) (s ++ [d])).1
      set n := (call_api_go o (a + 1) r (nextDelay d) (s ++ [d])).attempts with hn
      have hsub : n - a = (n - (a + 1)) + 1 := by omega
      rw [hrec, hsub, List.range_succ_eq_map]
      simp only [List.map_cons, Function.iterate_zero_apply, List.map_map,
        List.append_assoc, List.singleton_append]
      congr 2

/-- Claim C1: for call_api with the default budget of 6 tries, an attempt is
retried exactly when its HTTP status is in the transient set 429, 403, 502,
503, 504 or the attempt raises any exception (request exception, the
raise_for_status error for statuses 400-599, or a JSON-decode failure); at
most 6 attempts are made, and when the 6th attempt also fails, call_api
raises the last captured error instead of returning or looping forever. -/
theorem claim_C1_call_api_retry_policy (o : Nat → Outcome) :
    (1 ≤ (call_api o 6).attempts ∧ (call_api o 6).attempts ≤ 6)
    ∧ (∀ s b, attemptFails (Outcome.resp s b) = true ↔
        (s ∈ RETRYABLE ∨ (400 ≤ s ∧ s < 600) ∨ b = none))
    ∧ attemptFails Outcome.exn = true
    ∧ (∀ i, 1 ≤ i → i < (call_api o 6).attempts → attemptFails (o i) = true)
    ∧ (∀ i, 1 ≤ i → i < 6 → i ≤ (call_api o 6).attempts →
        (i < (call_api o 6).attempts ↔ attemptFails (o i) = true))
    ∧ ((∀ i, 1 ≤ i → i ≤ 6 → attemptFails (o i) = true) →
        (call_api o 6).attempts = 6
        ∧ ∃ e, attemptError (o 6) = some e
            ∧ (call_api o 6).result = Except.error e) := by
  have hc : call_api o 6 = call_api_go o 1 5 2 [] := rfl
  have hb := call_api_go_attempts_bounds o 5 1 2 []
  refine ⟨⟨by rw [hc]; exact hb.1, by rw [hc]; omega⟩, ?_, ?_, ?_, ?_, ?_⟩
  · intro s b
    constructor
    · intro hf
      by_cases h1 : s ∈ RETRYABLE
      · exact Or.inl h1
      by_cases h2 : 400 ≤ s ∧ s < 600
      · exact Or.inr (Or.inl h2)
      cases b with
      | none => exact Or.inr (Or.inr rfl)
      | some j => simp [attemptFails, attemptResult, h1, h2] at hf
    · intro hcond
      by_cases h1 : s ∈ RETRYABLE
      · simp [attemptFails, attemptResult, h1]
      by_cases h2 : 400 ≤ s ∧ s < 600
      · simp [attemptFails, attemptResult, h1, h2]
      rcases hcond with hcond | hcond | hcond
      · exact absurd hcond h1
      · exact absurd hcond h2
      · subst hcond
        simp [attemptFails, attemptResult, h1, h2]
  · rfl
  · intro i h1 h2
    rw [hc] at h2
    exact call_api_go_failed_before o 5 1 2 [] i h1 h2
  · intro i h1 h6 hle
    constructor
    · intro hlt
      rw [hc] at hlt
      exact call_api_go_failed_before o 5 1 2 [] i h1 hlt
    · intro hf
      rcases Nat.lt_or_ge i (call_api o 6).attempts with hlt | hge
      · exact hlt
      · have hieq : i = (call_api o 6).attempts := by omega
        have h6' : (call_api o 6).attempts = 6 := by
          rw [hc]
          exact call_api_go_exhausts_of_last_fails o 5 1 2 [] (by rw [← hc, ← hieq]; exact hf)
        omega
  · intro hall
    have hA1 : 1 ≤ (call_api o 6).attempts := by rw [hc]; exact hb.1
    have hA6 : (call_api o 6).attempts ≤ 6 := by rw [hc]; omega
    have hfA : attemptFails (o (call_api o 6).attempts) = true :=
      hall _ hA1 hA6
    have h6' : (call_api o 6).attempts = 6 := by
      rw [hc]
      exact call_api_go_exhausts_of_last_fails o 5 1 2 [] (by rw [← hc]; exact hfA)
    refine ⟨h6', ?_⟩
    have hres : (call_api o 6).result = attemptResult (o 6) := by
      rw [hc, call_api_go_result o 5 1 2 [], ← hc, h6']
    have hf6 : attemptFails (o 6) = true := hall 6 (by omega) (by omega)
    cases he : attemptResult (o 6) with
    | ok body => simp [attemptFails, he] at hf6
    | error e =>
      refine ⟨e, ?_, ?_⟩
      · simp [attemptError, he]
      · rw [hres, he]

/-- Witness for C1: when every attempt yields HTTP 503, call_api stops after
exactly 6 attempts and raises the last captured error. -/
theorem claim_C1_witness :
    (call_api (fun _ => Outcome.resp 503 none) 6).attempts = 6
    ∧ (call_api (fun _ => Outcome.resp 503 none) 6).result
        = Except.error (ApiError.retryableStatus 503) := by
  have h := (claim_C1_call_api_retry_policy (fun _ => Outcome.resp 503 none)).2.2.2.2.2
    (by intro i _ _; decide)
  obtain ⟨h6, e, he, hr⟩ := h
  refine ⟨h6, ?_⟩
  have hc : attemptError ((fun _ : Nat => Outcome.resp 503 none) 6)
      = some (ApiError.retryableStatus 503) := rfl
  rw [hc] at he
  injection he with he2
  rw [← he2] at hr
  exact hr

/-- Claim C2: the inter-attempt delays of call_api follow the sequence
obtained from the base 2.0 by repeatedly applying d -> min(d * 1.8, 20.0);
exactly attempts - 1 sleeps happen (none before the first attempt, none after
the last); and in a run where attempts 1-5 fail and attempt 6 succeeds the
five delays slept are 2, 3.6, 6.48, 11.664, 20 - strictly increasing. -/
theorem claim_C2_call_api_backoff (o : Nat → Outcome) :
    (call_api o 6).delays =
      (List.range ((call_api o 6).attempts - 1)).map (fun k => nextDelay^[k] 2)
    ∧ (call_api o 6).delays.length = (call_api o 6).attempts - 1
    ∧ ((∀ i, 1 ≤ i → i ≤ 5 → attemptFails (o i) = true) →
        attemptFails (o 6) = false →
        (call_api o 6).attempts = 6
        ∧ (call_api o 6).delays = [2, 18/5, 162/25, 1458/125, 20]
        ∧ List.Chain' (· < ·) (call_api o 6).delays
        ∧ ∃ b, (call_api o 6).result = Except.ok b) := by
  have hc : call_api o 6 = call_api_go o 1 5 2 [] := rfl
  have hb := call_api_go_attempts_bounds o 5 1 2 []
  have hdel : (call_api o 6).delays =
      (List.range ((call_api o 6).attempts - 1)).map (fun k => nextDelay^[k] 2) := by
    rw [hc, call_api_go_delays o 5 1 2 [], ← hc]
    simp
  refine ⟨hdel, by rw [hdel]; simp, ?_⟩
  intro h15 hok6
  have h6' : (call_api o 6).attempts = 6 := by
    rcases Nat.lt_or_ge (call_api o 6).attempts 6 with hlt | hge
    · have hA1 : 1 ≤ (call_api o 6).attempts := by rw [hc]; exact hb.1
      have hf : attemptFails (o (call_api o 6).attempts) = true :=
        h15 _ hA1 (by omega)
      have := call_api_go_exhausts_of_last_fails o 5 1 2 [] (by rw [← hc]; exact hf)
      rw [← hc] at this
      omega
    · have : (call_api o 6).attempts ≤ 6 := by rw [hc]; omega
      omega
  have i1 : nextDelay^[1] (2 : ℚ) = 18/5 := by
    rw [Function.iterate_one, nextDelay]
    rw [min_eq_left (by norm_num)]
    norm_num
  have i2 : nextDelay^[2] (2 : ℚ) = 162/25 := by
    rw [show (2 : ℕ) = 1 + 1 from rfl, Function.iterate_succ_apply', i1, nextDelay]
    rw [min_eq_left (by norm_num)]
    norm_num
  have i3 : nextDelay^[3] (2 : ℚ) = 1458/125 := by
    rw [show (3 : ℕ) = 2 + 1 from rfl, Function.iterate_succ_apply', i2, nextDelay]
    rw [min_eq_left (by norm_num)]
    norm_num
  have i4 : nextDelay^[4] (2 : ℚ) = 20 := by
    rw [show (4 : ℕ) = 3 + 1 from rfl, Function.iterate_succ_apply', i3, nextDelay]
    rw [min_eq_right (by norm_num)]
  have hlist : (call_api o 6).delays = [2, 18/5, 162/25, 1458/125, 20] := by
    rw [hdel, h6']
    rw [show List.range (6 - 1) = [0, 1, 2, 3, 4] from rfl]
    simp only [List.map_cons, List.map_nil, Function.iterate_zero_apply, i1, i2, i3, i4]
  refine ⟨h6', hlist, ?_, ?_⟩
  · rw [hlist]
    refine List.chain'_cons.mpr ⟨by norm_num, ?_⟩
    refine List.chain'_cons.mpr ⟨by norm_num, ?_⟩
    refine List.chain'_cons.mpr ⟨by norm_num, ?_⟩
    refine List.chain'_cons.mpr ⟨by norm_num, ?_⟩
    exact List.chain'_singleton _
  · have hres : (call_api o 6).result = attemptResult (o 6) := by
      rw [hc, call_api_go_result o 5 1 2 [], ← hc, h6']
    cases he : attemptResult (o 6) with
    | ok body => exact ⟨body, by rw [hres, he]⟩
    | error e => simp [attemptFails, he] at hok6

/-- Witness for C2: a transport failing with 503 on attempts 1-5 and
succeeding on attempt 6 leads to the five strictly increasing delays
2, 3.6, 6.48, 11.664, 20. -/
theorem claim_C2_witness :
    (call_api (fun i => if i < 6 then Outcome.resp 503 none
                        else Outcome.resp 200 (some (JVal.obj []))) 6).attempts = 6
    ∧ (call_api (fun i => if i < 6 then Outcome.resp 503 none
                          else Outcome.resp 200 (some (JVal.obj []))) 6).delays
        = [2, 18/5, 162/25, 1458/125, 20]
    ∧ List.Chain' (· < ·)
        (call_api (fun i => if i < 6 then Outcome.resp 503 none
                            else Outcome.resp 200 (some (JVal.obj []))) 6).delays := by
  have h := (claim_C2_call_api_backoff
      (fun i => if i < 6 then Outcome.resp 503 none
                else Outcome.resp 200 (some (JVal.obj [])))).2.2
    (by
      intro i h1 h2
      have hi : i < 6 := by omega
      simp only [if_pos hi]
      decide)
    (by
      simp only [show ¬(6 < 6) from by omega, if_neg]
      decide)
  exact ⟨h.1, h.2.1, h.2.2.1⟩

theorem firstSeq_none (payload : List (String × JVal)) :
    ∀ ks, (∀ k ∈ ks, getList payload k = none) → firstSeq payload ks = none := by
  intro ks
  induction ks with
  | nil => intro _; rfl
  | cons k ks ih =>
    intro hall
    have hk : getList payload k = none := hall k (by simp)
    simp only [firstSeq, hk]
    exact ih (fun k' hk' => hall k' (by simp [hk']))

/-- Claim C3: normalize takes the row sequence from the first candidate key
among "data", "rows", "result", "results" whose value is a sequence (earlier
candidates returning none of a sequence are skipped, later ones ignored), and
keeps from that sequence exactly the elements that are mappings, in order. -/
theorem claim_C3_normalize_first_key (payload : List (String × JVal))
    (i : Nat) (xs : List JVal)
    (hi : i < KEYS.length)
    (hfound : getList payload (KEYS.getD i "") = some xs)
    (hprev : ∀ j, j < i → getList payload (KEYS.getD j "") = none) :
    normalize payload = xs.filter isDict := by
  rw [normalize_eq_firstSeq]
  have hfs : firstSeq payload KEYS = some xs := by
    have h4 : i < 4 := by simpa [KEYS] using hi
    clear hi
    interval_cases i
    · simp only [KEYS, firstSeq]
      rw [show (KEYS.getD 0 "") = "data" from rfl] at hfound
      simp [hfound]
    · have h0 : getList payload "data" = none := hprev 0 (by omega)
      rw [show (KEYS.getD 1 "") = "rows" from rfl] at hfound
      simp only [KEYS, firstSeq]
      simp [h0, hfound]
    · have h0 : getList payload "data" = none := hprev 0 (by omega)
      have h1 : getList payload "rows" = none := hprev 1 (by omega)
      rw [show (KEYS.getD 2 "") = "result" from rfl] at hfound
      simp only [KEYS, firstSeq]
      simp [h0, h1, hfound]
    · have h0 : getList payload "data" = none := hprev 0 (by omega)
      have h1 : getList payload "rows" = none := hprev 1 (by omega)
      have h2 : getList payload "result" = none := hprev 2 (by omega)
      rw [show (KEYS.getD 3 "") = "results" from rfl] at hfound
      simp only [KEYS, firstSeq]
      simp [h0, h1, h2, hfound]
  rw [hfs]

/-- Witness for C3: a payload where "data" holds a non-sequence value and
"rows" holds a sequence of one mapping and one scalar; normalize returns
exactly the mapping element. -/
theorem claim_C3_witness :
    normalize [("data", JVal.num 7),
               ("rows", JVal.arr [JVal.obj [("a", JVal.num 1)], JVal.num 3]),
               ("result", JVal.arr [JVal.num 9])]
      = [JVal.obj [("a", JVal.num 1)]] := by
  have h := claim_C3_normalize_first_key
    [("data", JVal.num 7),
     ("rows", JVal.arr [JVal.obj [("a", JVal.num 1)], JVal.num 3]),
     ("result", JVal.arr [JVal.num 9])]
    1 [JVal.obj [("a", JVal.num 1)], JVal.num 3]
    (by norm_num [KEYS])
    rfl
    (by
      intro j hj
      interval_cases j
      rfl)
  rw [h]
  rfl

/-- Claim C4: a payload in which no candidate key holds a sequence value
normalizes to the empty sequence (normalize is a total function; no
exception is modelled because none can be raised). -/
theorem claim_C4_normalize_no_candidate (payload : List (String × JVal))
    (h : ∀ k ∈ KEYS, getList payload k = none) :
    normalize payload = [] := by
  rw [normalize_eq_firstSeq, firstSeq_none payload KEYS h]

/-- Witness for C4: a payload with none of the candidate keys present
normalizes to the empty list. -/
theorem claim_C4_witness :
    normalize [("other", JVal.arr [JVal.obj []]), ("count", JVal.num 2)] = [] := by
  refine claim_C4_normalize_no_candidate _ ?_
  intro k hk
  simp only [KEYS, List.mem_cons, List.not_mem_nil, or_false] at hk
  rcases hk with rfl | rfl | rfl | rfl <;> rfl

/-- Claim C10: whatever the payload, every element of the sequence returned
by normalize is a mapping (with string keys: decoded JSON objects are
string-keyed by construction), so the persister always writes a JSON array
of objects. -/
theorem claim_C10_normalize_all_dicts (payload : List (String × JVal))
    (r : JVal) (hr : r ∈ normalize payload) : isDict r = true := by
  rw [normalize_eq_firstSeq] at hr
  cases hfs : firstSeq payload KEYS with
  | none => rw [hfs] at hr; simp at hr
  | some xs =>
    rw [hfs] at hr
    exact (List.mem_filter.mp hr).2

/-- Witness for C10 at a concrete payload and element. -/
theorem claim_C10_witness :
    isDict (JVal.obj [("x", JVal.null)]) = true := by
  refine claim_C10_normalize_all_dicts
    [("data", JVal.arr [JVal.obj [("x", JVal.null)]])]
    (JVal.obj [("x", JVal.null)]) ?_
  show JVal.obj [("x", JVal.null)] ∈ [JVal.obj [("x", JVal.null)]]
  simp

/-! ## The HTML-mode script: scrape_table and its pandas pipeline

A parsed table (pandas DataFrame produced by read_html) is modelled
positionally: a list of column labels and a list of rows, each row a list of
cell values; a missing cell reads as NaN.  Cell values are the scalars the
tabular parser infers (here: NaN, text, integer; exact floats are not needed
by any claim). -/

/-- A scalar cell value inferred by the tabular parser; null models NaN. -/
inductive Cell where
  | null
  | str (s : String)
  | int (n : Int)
deriving DecidableEq, Repr

/-- Python str(c) on a cell/label value (str(nan) = "nan"). -/
def pyStr : Cell → String
  | .null => "nan"
  | .str s => s
  | .int n => toString n

/-- A parsed table: column labels and data rows, positionally aligned. -/
structure DataFrame where
  cols : List Cell
  rows : List (List Cell)
deriving DecidableEq, Repr

/-- Whether column j survives df.dropna(axis=1, how="all"): kept exactly when
some row has a non-NaN value in that column (pandas drops a column whose
non-NaN count is 0, including every column of a zero-row table). -/
def colKeep (rows : List (List Cell)) (j : Nat) : Bool :=
  rows.any (fun row => !(row.getD j Cell.null == Cell.null))

/-- The positions of the columns kept by dropna(axis=1, how="all"). -/
def keptIdx (df : DataFrame) : List Nat :=
  (List.range df.cols.length).filter (colKeep df.rows)

/-- df.dropna(axis=1, how="all"): restrict labels and every row to the kept
column positions. -/
def dropEmptyCols (df : DataFrame) : DataFrame :=
  ⟨(keptIdx df).map (fun j => df.cols.getD j Cell.null),
   df.rows.map (fun row => (keptIdx df).map (fun j => row.getD j Cell.null))⟩

/-- Python s.strip(): remove leading and trailing whitespace. -/
def pyStrip (s : String) : String :=
  ⟨((s.data.dropWhile Char.isWhitespace).reverse.dropWhile Char.isWhitespace).reverse⟩

/-- df.columns = [str(c).strip() for c in df.columns] after the drop. -/
def cleanHeaders (df : DataFrame) : List String :=
  (dropEmptyCols df).cols.map (fun c => pyStrip (pyStr c))

/-- Insertion into a Python dict: an existing key keeps its position and gets
the new value; a new key is appended. -/
def dictInsert (d : List (String × Cell)) (k : String) (v : Cell) :
    List (String × Cell) :=
  if d.any (fun kv => kv.1 == k) then
    d.map (fun kv => if kv.1 == k then (k, v) else kv)
  else
    d ++ [(k, v)]

/-- One record of df.to_dict(orient="records"): the dict built from the
column labels zipped with the row's values. -/
def rowRecord (cols : List String) (row : List Cell) : List (String × Cell) :=
  (cols.zip row).foldl (fun d kv => dictInsert d kv.1 kv.2) []

/-- df.to_dict(orient="records"): one record per data row, in order. -/
def to_records (cols : List String) (rows : List (List Cell)) :
    List (List (String × Cell)) :=
  rows.map (rowRecord cols)

/-- The keys of a record, in insertion order. -/
def recKeys (rec : List (String × Cell)) : List String :=
  rec.map Prod.fst

/-- The table-processing tail of scrape_table applied to the first table:
drop all-empty columns, strip the stringified headers, convert to records. -/
def scrape_records (df : DataFrame) : List (List (String × Cell)) :=
  to_records (cleanHeaders df) (dropEmptyCols df).rows

/-- Errors scrape_table can propagate. -/
inductive ScrapeError where
  /-- requests.get raised. -/
  | requestException
  /-- requests.HTTPError from r.raise_for_status() (status 400-599). -/
  | httpError (status : Nat)
  /-- pandas.read_html raised ValueError("No tables found"). -/
  | noTablesFound
deriving DecidableEq, Repr

/-- pandas.read_html(text), modelled over the list of tables the document
contains: it returns that list, and raises ValueError when the document
holds no extractable table (it never returns an empty list). -/
def read_html (tables : List DataFrame) : Except ScrapeError (List DataFrame) :=
  if tables.isEmpty then .error .noTablesFound else .ok tables

/-- What the transport does for the single HTML request: either requests.get
raises, or a response arrives with a status code and a document containing
the given tables. -/
inductive HtmlOutcome where
  | exn
  | resp (status : Nat) (tables : List DataFrame)

/-- Observable result of one scrape_table call: how many network requests
were issued and the returned records or the propagated error. -/
structure ScrapeRun where
  requestsMade : Nat
  result : Except ScrapeError (List (List (String × Cell)))

/-- The body of scrape_table applied to the one response (or exception) of
its single GET: raise_for_status (raising exactly for statuses 400-599),
read_html, the `if not tables: return []` guard, then the first table. -/
def scrape_result : HtmlOutcome → Except ScrapeError (List (List (String × Cell)))
  | .exn => .error .requestException
  | .resp status tables =>
    if 400 ≤ status ∧ status < 600 then .error (.httpError status)
    else
      match read_html tables with
      | .error e => .error e
      | .ok ts =>
        match ts with
        | [] => .ok []
        | df :: _ => .ok (scrape_records df)

/-- scrape_table(url) from the HTML-mode script: the source contains exactly
one requests.get call and no loop, so one call issues one request (attempt 1
of the transport) and computes from its outcome alone. -/
def scrape_table (transport : Nat → HtmlOutcome) : ScrapeRun :=
  ⟨1, scrape_result (transport 1)⟩

/-- Counterexample to C5 as stated: on a document containing no extractable
table, scrape_table propagates the ValueError of pandas.read_html instead of
returning the empty sequence (the `if not tables` guard in the source is
unreachable because read_html never returns an empty list). -/
theorem claim_C5_counterexample :
    (scrape_table (fun _ => HtmlOutcome.resp 200 [])).result
      = Except.error ScrapeError.noTablesFound
    ∧ (scrape_table (fun _ => HtmlOutcome.resp 200 [])).result ≠ Except.ok [] := by
  refine ⟨rfl, ?_⟩
  intro h
  rw [show (scrape_table (fun _ => HtmlOutcome.resp 200 [])).result
      = Except.error ScrapeError.noTablesFound from rfl] at h
  exact Except.noConfusion h

/-- Claim C5 as amended: when the fetched document contains no extractable
table, scrape_table raises (pandas.read_html's ValueError propagates); when
one or more tables exist, the first table is selected and normalized. -/
theorem claim_C5_no_table_raises (transport : Nat → HtmlOutcome)
    (status : Nat) (tables : List DataFrame)
    (h1 : transport 1 = HtmlOutcome.resp status tables)
    (h2 : ¬(400 ≤ status ∧ status < 600)) :
    (tables = [] →
      (scrape_table transport).result = Except.error ScrapeError.noTablesFound)
    ∧ (∀ df rest, tables = df :: rest →
        (scrape_table transport).result = Except.ok (scrape_records df)) := by
  have hres : (scrape_table transport).result = scrape_result (transport 1) := rfl
  constructor
  · intro ht
    rw [hres, h1, ht]
    simp [scrape_result, h2, read_html]
  · intro df rest ht
    rw [hres, h1, ht]
    simp [scrape_result, h2, read_html]

/-- Witness for the amended C5: a one-table document is normalized to that
table's records, and an empty document raises. -/
theorem claim_C5_witness :
    (scrape_table (fun _ =>
        HtmlOutcome.resp 200 [⟨[Cell.str "A"], [[Cell.int 1]]⟩])).result
      = Except.ok (scrape_records ⟨[Cell.str "A"], [[Cell.int 1]]⟩)
    ∧ (scrape_table (fun _ => HtmlOutcome.resp 204 [])).result
      = Except.error ScrapeError.noTablesFound := by
  constructor
  · exact (claim_C5_no_table_raises _ 200 _ rfl (by omega)).2
      ⟨[Cell.str "A"], [[Cell.int 1]]⟩ [] rfl
  · exact (claim_C5_no_table_raises _ 204 _ rfl (by omega)).1 rfl

/-- Counterexample to C6 as stated: a 304 response (not a 2xx status) does
not propagate as an error - raise_for_status only raises for statuses in
400-599, so scrape_table proceeds and returns the table's records. -/
theorem claim_C6_counterexample :
    ¬(200 ≤ 304 ∧ 304 ≤ 299)
    ∧ (scrape_table (fun _ =>
          HtmlOutcome.resp 304 [⟨[Cell.str "A"], [[Cell.int 1]]⟩])).result
        = Except.ok [[("A", Cell.int 1)]] := by
  refine ⟨by omega, ?_⟩
  rfl

/-- Claim C6 as amended: exactly one network request is issued per
scrape_table call, and every 4xx/5xx status (400-599) as well as any
exception during that single request propagates immediately with no retry. -/
theorem claim_C6_single_request_no_retry (transport : Nat → HtmlOutcome) :
    (scrape_table transport).requestsMade = 1
    ∧ (transport 1 = HtmlOutcome.exn →
        (scrape_table transport).result = Except.error ScrapeError.requestException)
    ∧ (∀ status tables, transport 1 = HtmlOutcome.resp status tables →
        400 ≤ status → status < 600 →
        (scrape_table transport).result
          = Except.error (ScrapeError.httpError status)) := by
  have hres : (scrape_table transport).result = scrape_result (transport 1) := rfl
  refine ⟨rfl, ?_, ?_⟩
  · intro h
    rw [hres, h]
    rfl
  · intro status tables h h4 h6
    rw [hres, h]
    simp [scrape_result, h4, h6]

/-- Witness for the amended C6: a 503 response propagates as an immediate
error from the single request. -/
theorem claim_C6_witness :
    (scrape_table (fun _ => HtmlOutcome.resp 503 [])).requestsMade = 1
    ∧ (scrape_table (fun _ => HtmlOutcome.resp 503 [])).result
        = Except.error (ScrapeError.httpError 503) := by
  have h := claim_C6_single_request_no_retry (fun _ => HtmlOutcome.resp 503 [])
  exact ⟨h.1, h.2.2 503 [] rfl (by omega) (by omega)⟩

theorem dictInsert_keys (d : List (String × Cell)) (k : String) (v : Cell) :
    ∀ k', k' ∈ recKeys (dictInsert d k v) → k' ∈ recKeys d ∨ k' = k := by
  intro k' h
  unfold dictInsert at h
  by_cases hany : d.any (fun kv => kv.1 == k)
  · rw [if_pos hany] at h
    simp only [recKeys, List.map_map, List.mem_map, Function.comp] at h
    obtain ⟨kv, hkv, hfst⟩ := h
    by_cases hk : kv.1 == k
    · rw [if_pos hk] at hfst
      exact Or.inr hfst.symm
    · rw [if_neg hk] at hfst
      exact Or.inl (List.mem_map.mpr ⟨kv, hkv, hfst⟩)
  · rw [if_neg hany] at h
    simp only [recKeys, List.map_append, List.mem_append, List.map_cons,
      List.map_nil, List.mem_singleton] at h
    rcases h with h | h
    · exact Or.inl h
    · exact Or.inr h

theorem foldl_dictInsert_keys (pairs : List (String × Cell)) :
    ∀ (init : List (String × Cell)) (k : String),
      k ∈ recKeys (pairs.foldl (fun d kv => dictInsert d kv.1 kv.2) init) →
      k ∈ recKeys init ∨ k ∈ pairs.map Prod.fst := by
  induction pairs with
  | nil =>
    intro init k h
    exact Or.inl h
  | cons p ps ih =>
    intro init k h
    simp only [List.foldl_cons] at h
    rcases ih (dictInsert init p.1 p.2) k h with h' | h'
    · rcases dictInsert_keys init p.1 p.2 k h' with h'' | h''
      · exact Or.inl h''
      · exact Or.inr (by simp [h''])
    · exact Or.inr (by simp [h'])

theorem rowRecord_keys (cols : List String) (row : List Cell) (k : String)
    (h : k ∈ recKeys (rowRecord cols row)) : k ∈ cols := by
  rcases foldl_dictInsert_keys (cols.zip row) [] k h with h' | h'
  · simp [recKeys] at h'
  · obtain ⟨⟨a, b⟩, hp, hfst⟩ := List.mem_map.mp h'
    exact hfst ▸ (List.of_mem_zip hp).1

/-- Claim C7: for every parsed table, a column empty in every row is dropped
(its position is not kept), the remaining headers are exactly the kept
original labels stringified and stripped with no other renaming, the number
of output records equals the number of data rows, and no record mentions a
key outside the cleaned header list. -/
theorem claim_C7_scrape_cleanup (df : DataFrame) :
    (scrape_records df).length = df.rows.length
    ∧ cleanHeaders df
        = (keptIdx df).map (fun j => pyStrip (pyStr (df.cols.getD j Cell.null)))
    ∧ (∀ j, j < df.cols.length → colKeep df.rows j = false → j ∉ keptIdx df)
    ∧ (∀ rec, rec ∈ scrape_records df →
        ∀ k, k ∈ recKeys rec → k ∈ cleanHeaders df) := by
  refine ⟨?_, ?_, ?_, ?_⟩
  · simp [scrape_records, to_records, dropEmptyCols]
  · simp [cleanHeaders, dropEmptyCols, List.map_map, Function.comp]
  · intro j _ hflat hmem
    rw [keptIdx, List.mem_filter] at hmem
    rw [hmem.2] at hflat
    exact Bool.noConfusion hflat
  · intro rec hrec k hk
    obtain ⟨row, _, hrow⟩ := List.mem_map.mp hrec
    rw [← hrow] at hk
    exact rowRecord_keys _ _ k hk

/-- The three-row example table of C7: a padded " Name " header, an "HR"
column, and a fully empty "Unnamed: 5" column. -/
def exTable : DataFrame :=
  ⟨[Cell.str " Name ", Cell.str "HR", Cell.str "Unnamed: 5"],
   [[Cell.str "a", Cell.int 1, Cell.null],
    [Cell.str "b", Cell.int 2, Cell.null],
    [Cell.str "c", Cell.int 3, Cell.null]]⟩

/-- Witness for C7: the example table yields exactly three records, headers
["Name", "HR"], and no record contains the dropped column "Unnamed: 5". -/
theorem claim_C7_witness :
    (scrape_records exTable).length = exTable.rows.length
    ∧ exTable.rows.length = 3
    ∧ cleanHeaders exTable = ["Name", "HR"]
    ∧ (∀ rec, rec ∈ scrape_records exTable → "Unnamed: 5" ∉ recKeys rec) := by
  refine ⟨(claim_C7_scrape_cleanup exTable).1, rfl, by decide, ?_⟩
  intro rec hrec hk
  have hmem := (claim_C7_scrape_cleanup exTable).2.2.2 rec hrec _ hk
  have : cleanHeaders exTable = ["Name", "HR"] := by decide
  rw [this] at hmem
  exact absurd hmem (by decide)

/-! ## The Request Descriptor Builder: leaders_params and leaders_url -/

/-- The Segment Registry: the fixed mapping from segment name to the ordered
list of player IDs, identical in both source files. -/
def SEGMENTS : List (String × List Nat) :=
  [("hit_am", [26546, 27915, 19455, 23802, 16925, 15654, 30028, 21496, 16398, 33280, 29646, 35108, 30038, 21587, 31912, 21547, 25629, 21535, 19458, 25183, 25705, 23395, 23695, 31363, 24878, 23372, 25477, 29830, 31661, 26202, 31370, 28253, 27690, 23968, 27501, 26374, 26244, 29844, 27963, 24605]),
   ("hit_nz", [10655, 18054, 27789, 22766, 19960, 29571, 19877, 30063, 26148, 26143, 10200, 29949, 31396, 25999, 31583, 19562]),
   ("sp", [31764, 13050, 26056, 20370, 31815, 19736, 30113, 31312, 26171, 27932, 31623, 23301, 19666, 26482, 19222, 14120, 31475, 23735, 17732, 15094, 26440, 13580, 16358, 20629]),
   ("rp_am", [31764, 25327, 29633, 26203, 13050, 26136, 21345, 33568, 27695, 19804, 31815, 19736, 13607, 30161, 9174, 30113, 30206, 27662, 15256, 27481, 22113, 31312, 25873, 33248, 27974, 26260, 22176, 27626, 19586, 23324, 27583, 21863, 19835, 20546, 26259, 27932, 21212, 18674, 23301, 19666, 26482, 16631, 19205, 30016, 24591, 16128, 24590, 13190, 27984, 25957, 27271, 21924, 15514, 29615, 20515, 19222, 14120, 31884, 23811, 25839, 24710, 26353, 22288, 29770, 20827]),
   ("rp_nz", [17732, 19281, 29564, 33821, 15094, 24094, 26440, 13580, 26344, 26285, 20629, 20379])]

/-- The season constant (both scripts). -/
def SEASON : Nat := 2025

/-- ",".join(map(str, players)). -/
def commaJoin : List Nat → String
  | [] => ""
  | [p] => toString p
  | p :: ps => toString p ++ "," ++ commaJoin ps

/-- The split selector of a job, named per the spec. -/
inductive Split where
  | all
  | vsLeft
  | vsRight

/-- The month-code encoding of a split used by the leaders endpoints. -/
def monthCode : Split → Int
  | .all => 0
  | .vsLeft => 13
  | .vsRight => 14

/-- leaders_params(players, stats, month) from the structured-mode script:
the full query-parameter mapping, in source order. -/
def leaders_params (players : List Nat) (stats : String) (month : Int) :
    List (String × String) :=
  [("ind", "0"),
   ("lg", "all"),
   ("pos", "all"),
   ("qual", "0"),
   ("season", toString SEASON),
   ("season1", toString SEASON),
   ("stats", stats),
   ("month", toString month),
   ("players", commaJoin players),
   ("team", "0,ts"),
   ("rost", "0"),
   ("type", "8"),
   ("sortcol", "17"),
   ("sortdir", "default"),
   ("pageitems", "2000"),
   ("pagenum", "1"),
   ("filter", "")]

/-- The parameter names of leaders_params, in order. -/
def PARAM_KEYS : List String :=
  ["ind", "lg", "pos", "qual", "season", "season1", "stats", "month",
   "players", "team", "rost", "type", "sortcol", "sortdir", "pageitems",
   "pagenum", "filter"]

/-- The 14 job-invariant parameter entries of leaders_params. -/
def FIXED_PAIRS : List (String × String) :=
  [("ind", "0"),
   ("lg", "all"),
   ("pos", "all"),
   ("qual", "0"),
   ("season", "2025"),
   ("season1", "2025"),
   ("team", "0,ts"),
   ("rost", "0"),
   ("type", "8"),
   ("sortcol", "17"),
   ("sortdir", "default"),
   ("pageitems", "2000"),
   ("pagenum", "1"),
   ("filter", "")]

/-- The fixed URL text up to the stats selector (HTML-mode script; string
concatenation is associative, so the f-string pieces are grouped freely). -/
def URL_STATS_PRE : String :=
  "https://www.fangraphs.com/leaders/major-league?"
    ++ "ind=0&lg=all&pos=all&qual=0&season=" ++ toString SEASON
    ++ "&season1=" ++ toString SEASON ++ "&type=1&stats="

/-- The fixed URL text between the stats and month selectors. -/
def URL_MONTH_PRE : String := "&month="

/-- The fixed URL text between the month selector and the player list. -/
def URL_PLAYERS_PRE : String := "&players="

/-- The fixed URL tail: the effectively-unbounded page size. -/
def URL_SUF : String := "&pageitems=2000000000"

/-- leaders_url(players, stats, month) from the HTML-mode script. -/
def leaders_url (players : List Nat) (stats : String) (month : Int) : String :=
  URL_STATS_PRE ++ stats ++ URL_MONTH_PRE ++ toString month
    ++ URL_PLAYERS_PRE ++ commaJoin players ++ URL_SUF

/-- The static job list (15 jobs, identical in both scripts): output name,
segment key, stat category, month code. -/
def TASKS : List (String × String × String × Int) :=
  [("hit_am_bat_all", "hit_am", "bat", 0),
   ("hit_am_bat_lhp", "hit_am", "bat", 13),
   ("hit_am_bat_rhp", "hit_am", "bat", 14),
   ("hit_nz_bat_all", "hit_nz", "bat", 0),
   ("hit_nz_bat_lhp", "hit_nz", "bat", 13),
   ("hit_nz_bat_rhp", "hit_nz", "bat", 14),
   ("sp_pit_all", "sp", "pit", 0),
   ("sp_pit_lhb", "sp", "pit", 13),
   ("sp_pit_rhb", "sp", "pit", 14),
   ("rp_am_pit_all", "rp_am", "pit", 0),
   ("rp_am_pit_lhb", "rp_am", "pit", 13),
   ("rp_am_pit_rhb", "rp_am", "pit", 14),
   ("rp_nz_pit_all", "rp_nz", "pit", 0),
   ("rp_nz_pit_lhb", "rp_nz", "pit", 13),
   ("rp_nz_pit_rhb", "rp_nz", "pit", 14)]

/-- Claim C8: for every segment key present in the registry and every job,
the job-varying descriptor fields are exactly the stat-category selector,
the month-coded split selector (0 all, 13 vs-left, 14 vs-right) and the
comma-joined player list in registry order: the three fields hold those
values, every other parameter entry is the same fixed pair for all jobs, the
comma join emits the IDs in list order, and the HTML-mode URL decomposes
into fixed text around the same three fields. -/
theorem claim_C8_descriptor_job_fields (seg : String) (ps : List Nat)
    (stats : String) (sp : Split)
    (_hseg : SEGMENTS.lookup seg = some ps) :
    ((leaders_params ps stats (monthCode sp)).lookup "stats" = some stats
      ∧ (leaders_params ps stats (monthCode sp)).lookup "month"
          = some (toString (monthCode sp))
      ∧ (leaders_params ps stats (monthCode sp)).lookup "players"
          = some (commaJoin ps))
    ∧ (monthCode Split.all = 0 ∧ monthCode Split.vsLeft = 13
        ∧ monthCode Split.vsRight = 14)
    ∧ (leaders_params ps stats (monthCode sp)).filter
        (fun kv => !(kv.1 == "stats") && !(kv.1 == "month") && !(kv.1 == "players"))
        = FIXED_PAIRS
    ∧ (∀ p : Nat, commaJoin [p] = toString p)
    ∧ (∀ (p q : Nat) (qs : List Nat),
        commaJoin (p :: q :: qs) = toString p ++ "," ++ commaJoin (q :: qs))
    ∧ leaders_url ps stats (monthCode sp)
        = URL_STATS_PRE ++ stats ++ URL_MONTH_PRE ++ toString (monthCode sp)
            ++ URL_PLAYERS_PRE ++ commaJoin ps ++ URL_SUF
    ∧ URL_STATS_PRE
        = "https://www.fangraphs.com/leaders/major-league?ind=0&lg=all&pos=all&qual=0&season=2025&season1=2025&type=1&stats="
    ∧ (∀ t, t ∈ TASKS → t.2.2.2 = 0 ∨ t.2.2.2 = 13 ∨ t.2.2.2 = 14) := by
  refine ⟨⟨rfl, rfl, rfl⟩, ⟨rfl, rfl, rfl⟩, rfl, fun p => rfl, fun p q qs => rfl,
    rfl, rfl, ?_⟩
  decide

/-- Witness for C8 at the hit_nz segment, batting, vs-left split. -/
theorem claim_C8_witness :
    (leaders_params ((SEGMENTS.lookup "hit_nz").getD []) "bat"
        (monthCode Split.vsLeft)).lookup "players"
      = some (commaJoin ((SEGMENTS.lookup "hit_nz").getD []))
    ∧ (leaders_params ((SEGMENTS.lookup "hit_nz").getD []) "bat"
        (monthCode Split.vsLeft)).lookup "month" = some "13" := by
  have h := claim_C8_descriptor_job_fields "hit_nz"
    ((SEGMENTS.lookup "hit_nz").getD []) "bat" Split.vsLeft (by rfl)
  refine ⟨h.1.2.2, ?_⟩
  rw [h.1.2.1]
  rfl

/-- Claim C9: descriptor construction is pure value assembly and cannot fail
for a registry key: every registry key resolves to a player list, the
parameter set always carries the full fixed key list, and the empty player
list is a legal degenerate case producing an empty players field in both
modes. -/
theorem claim_C9_descriptor_total (seg : String) (stats : String) (m : Int)
    (hseg : seg ∈ SEGMENTS.map Prod.fst) :
    (∃ ps, SEGMENTS.lookup seg = some ps)
    ∧ (∀ ps : List Nat, (leaders_params ps stats m).map Prod.fst = PARAM_KEYS)
    ∧ (leaders_params [] stats m).lookup "players" = some ""
    ∧ commaJoin [] = ""
    ∧ leaders_url [] stats m
        = URL_STATS_PRE ++ stats ++ URL_MONTH_PRE ++ toString m
            ++ URL_PLAYERS_PRE ++ "" ++ URL_SUF := by
  refine ⟨?_, fun ps => rfl, rfl, rfl, rfl⟩
  simp only [SEGMENTS, List.map_cons, List.map_nil, List.mem_cons,
    List.not_mem_nil, or_false] at hseg
  rcases hseg with rfl | rfl | rfl | rfl | rfl <;> exact ⟨_, rfl⟩

/-- Witness for C9 at the sp segment with an empty player list. -/
theorem claim_C9_witness :
    (∃ ps, SEGMENTS.lookup "sp" = some ps)
    ∧ (leaders_params [] "pit" 0).lookup "players" = some "" := by
  have h := claim_C9_descriptor_total "sp" "pit" 0 (by decide)
  exact ⟨h.1, h.2.2.1⟩

end CBL
